import Mathlib

/-!
Shallow embedding of `src/create_presentation.py`, a script that builds a
fixed 14-slide presentation with the python-pptx library and saves it to a
file.  Slides, shapes and text frames are modelled as inert data; the
python-pptx mutation API (`slides.add_slide`, `shapes.add_shape`,
`shapes.add_textbox`, `shapes.add_table`, paragraph loops) is modelled by
pure state passing on a `Document` value.  Geometry is kept in EMU
(python-pptx's internal unit; `Inches(x)` = 914400·x), with lengths given in
hundredths of an inch so everything stays in `Nat`.  Character-level styling
(font size, bold, colour, alignment, spacing) is not part of the model; shape
geometry, fill colours drawn from the palette, and all text content are.
-/

namespace CreatePresentation

/-- An RGB colour triple, as `pptx.dml.color.RGBColor`. -/
structure RGB where
  r : Nat
  g : Nat
  b : Nat
  deriving DecidableEq, Repr

/-- `Inches(c/100)` in EMU: python-pptx's `Inches(x)` is `914400 * x`, and all
length literals in the source are multiples of 1/100 inch, so `inches c`
models `Inches(c / 100)` as `c * 9144`. -/
def inches (c : Nat) : Nat := c * 9144

/-- A shape on a slide: a solid-filled rectangle (`shapes.add_shape(1, ...)`),
a text box (`shapes.add_textbox`) holding its paragraph texts, or a table
(`shapes.add_table`) holding its row/column counts and cell texts. -/
inductive Shape where
  | rect (x y w h : Nat) (fill : RGB)
  | textbox (x y w h : Nat) (paras : List String)
  | table (x y w h : Nat) (nRows nCols : Nat) (cells : List (List String))
  deriving DecidableEq, Repr

/-- A slide: the ordered sequence of shapes added to it. -/
structure Slide where
  shapes : List Shape
  deriving DecidableEq, Repr

/-- The presentation document: canvas dimensions (`prs.slide_width`,
`prs.slide_height`), the five palette colours closed over by every builder
(`PRIMARY_COLOR` … `WHITE`, locals of `create_presentation` in the source),
and the ordered slide list. -/
structure Document where
  slide_width : Nat
  slide_height : Nat
  PRIMARY_COLOR : RGB
  SECONDARY_COLOR : RGB
  ACCENT_COLOR : RGB
  LIGHT_BG : RGB
  WHITE : RGB
  slides : List Slide
  deriving DecidableEq, Repr

/-- An observable effect of the run: saving the document to a file
(`prs.save(...)`) or printing one line to standard output (`print(...)`). -/
inductive Event where
  | save (filename : String)
  | printLine (line : String)
  deriving DecidableEq, Repr

/-- Splits a character list into lines at each line feed; `acc` holds the
(reversed) characters of the current line. -/
def splitLinesAux : List Char → List Char → List String
  | [], acc => [String.mk acc.reverse]
  | c :: rest, acc =>
      if c = '\n' then String.mk acc.reverse :: splitLinesAux rest []
      else splitLinesAux rest (c :: acc)

/-- Semantics of the `text_frame.text = s` setter: the frame's paragraphs
become the lines of `s` (line feeds open new paragraphs; a string without
line feeds gives one paragraph holding it whole). -/
def setText (s : String) : List String := splitLinesAux s.data []

/-- Semantics of the paragraph-filling loops
(`for i, item in enumerate(items): if i > 0: add_paragraph(); paragraphs[i].text = item`):
the frame starts with one empty paragraph; step `i > 0` appends a fresh empty
paragraph; step `i` overwrites paragraph `i` with the item. -/
def fillParasAux : List String → Nat → List String → List String
  | [], _, acc => acc
  | item :: rest, i, acc =>
      let acc' := if i > 0 then acc ++ [""] else acc
      fillParasAux rest (i + 1) (acc'.set i item)

/-- Paragraph texts of a fresh text frame after the enumerate loop over
`items` (a fresh frame holds one empty paragraph). -/
def fillParas (items : List String) : List String := fillParasAux items 0 [""]

/-- `add_title_slide(title, subtitle)`: full-canvas primary background
rectangle, title text box and subtitle text box; the new slide is appended to
the document. -/
def add_title_slide (prs : Document) (title subtitle : String) : Document :=
  let slide : Slide := ⟨[
    Shape.rect 0 0 prs.slide_width prs.slide_height prs.PRIMARY_COLOR,
    Shape.textbox (inches 100) (inches 250) (inches 800) (inches 100) (setText title),
    Shape.textbox (inches 100) (inches 400) (inches 800) (inches 100) (setText subtitle)]⟩
  { prs with slides := prs.slides ++ [slide] }

/-- `add_content_slide(title, content_items, layout_type)`: primary title bar
and title text box, then a body depending on `layout_type`: one text box
filled from `content_items` for "bullet"; left and right text boxes filled
from `content_items[:len // 2]` and `content_items[len // 2:]` for
"two_column"; nothing otherwise (no `else` branch in the source). -/
def add_content_slide (prs : Document) (title : String) (content_items : List String)
    (layout_type : String) : Document :=
  let base : List Shape := [
    Shape.rect 0 0 prs.slide_width (inches 100) prs.PRIMARY_COLOR,
    Shape.textbox (inches 50) (inches 20) (inches 900) (inches 60) (setText title)]
  let body : List Shape :=
    if layout_type = "bullet" then
      [Shape.textbox (inches 80) (inches 150) (inches 840) (inches 550) (fillParas content_items)]
    else if layout_type = "two_column" then
      [Shape.textbox (inches 80) (inches 150) (inches 400) (inches 550)
        (fillParas (content_items.take (content_items.length / 2))),
       Shape.textbox (inches 520) (inches 150) (inches 400) (inches 550)
        (fillParas (content_items.drop (content_items.length / 2)))]
    else []
  { prs with slides := prs.slides ++ [⟨base ++ body⟩] }

/-- The four fixed 2×2 grid positions of `add_feature_slide`, in source
order: top-left, top-right, bottom-left, bottom-right. -/
def featurePositions : List (Nat × Nat) :=
  [(inches 80, inches 150), (inches 520, inches 150),
   (inches 80, inches 420), (inches 520, inches 420)]

/-- The three shapes of one feature box at grid position `(x, y)`: bordered
light-background rectangle, heading text box, wrapped description text box. -/
def featureBoxShapes (lightBg : RGB) (x y : Nat) (feature_title feature_desc : String) :
    List Shape :=
  [Shape.rect x y (inches 400) (inches 250) lightBg,
   Shape.textbox (x + inches 20) (y + inches 20) (inches 400 - inches 40) (inches 50)
     (setText feature_title),
   Shape.textbox (x + inches 20) (y + inches 80) (inches 400 - inches 40)
     (inches 250 - inches 100) (setText feature_desc)]

/-- `add_feature_slide(title, features)`: primary title bar and title text
box, then one feature-box group per element of `features[:4]`, placed at
`positions[i]` in order. -/
def add_feature_slide (prs : Document) (title : String)
    (features : List (String × String)) : Document :=
  let base : List Shape := [
    Shape.rect 0 0 prs.slide_width (inches 100) prs.PRIMARY_COLOR,
    Shape.textbox (inches 50) (inches 20) (inches 900) (inches 60) (setText title)]
  let boxes : List Shape :=
    ((features.take 4).zip featurePositions).flatMap
      (fun fp => featureBoxShapes prs.LIGHT_BG fp.2.1 fp.2.2 fp.1.1 fp.1.2)
  { prs with slides := prs.slides ++ [⟨base ++ boxes⟩] }

/-- The document as initialised at the top of `create_presentation`:
10 × 7.5 inch canvas, the five palette colours, no slides yet. -/
def initial_document : Document :=
  { slide_width := inches 1000
    slide_height := inches 750
    PRIMARY_COLOR := ⟨0, 102, 204⟩
    SECONDARY_COLOR := ⟨51, 51, 51⟩
    ACCENT_COLOR := ⟨0, 176, 80⟩
    LIGHT_BG := ⟨240, 248, 255⟩
    WHITE := ⟨255, 255, 255⟩
    slides := [] }

/-- The literal comparison-table rows of slide 9 (`table_data` in the
source): one header row and six data rows, three columns each. -/
def table_data : List (List String) :=
  [["Feature", "Traditional Tools", "Our Platform"],
   ["Learning Curve", "Weeks", "✅ Minutes"],
   ["Real-Time Feedback", "❌ No", "✅ Instant"],
   ["Visual Comparison", "Manual", "✅ Side-by-side"],
   ["Setup Complexity", "High", "✅ One-click"],
   ["Cost", "$$$$", "✅ Local & Free"],
   ["Extensibility", "Limited", "✅ Open Architecture"]]

/-- Slide 9, built inline in the source: title bar, title text box, and the
comparison table (`add_table(len(table_data), 3, Inches(1), Inches(1.8),
Inches(8), Inches(4.5))`, cells filled from `table_data`). -/
def comparison_table_slide (prs : Document) : Slide :=
  ⟨[Shape.rect 0 0 prs.slide_width (inches 100) prs.PRIMARY_COLOR,
    Shape.textbox (inches 50) (inches 20) (inches 900) (inches 60)
      (setText "What Makes Us Different"),
    Shape.table (inches 100) (inches 180) (inches 800) (inches 450)
      table_data.length 3 table_data]⟩

/-- The literal (stat, label) pairs of slide 12 (`stats` in the source). -/
def stats : List (String × String) :=
  [("⚡ <100ms", "Visualization Updates"),
   ("🗄️ 10:1", "Data Compression"),
   ("🎨 4 Types", "Signal Generation"),
   ("🔧 4 Operations", "Signal Processing"),
   ("🏗️ 4 Layers", "Clean Architecture"),
   ("✅ 100%", "Local Deployment")]

/-- The six fixed stat-box grid positions of slide 12 (`positions` in the
source). -/
def statPositions : List (Nat × Nat) :=
  [(inches 80, inches 180), (inches 370, inches 180), (inches 660, inches 180),
   (inches 80, inches 430), (inches 370, inches 430), (inches 660, inches 430)]

/-- Slide 12, built inline in the source: title bar, "Quick Stats" title,
then per (stat, label)/position pair an accent-filled stat box, a stat text
box and a label text box. -/
def quick_stats_slide (prs : Document) : Slide :=
  ⟨[Shape.rect 0 0 prs.slide_width (inches 100) prs.PRIMARY_COLOR,
    Shape.textbox (inches 50) (inches 20) (inches 900) (inches 60) (setText "Quick Stats")] ++
   (stats.zip statPositions).flatMap (fun sp =>
     [Shape.rect sp.2.1 sp.2.2 (inches 250) (inches 200) prs.ACCENT_COLOR,
      Shape.textbox sp.2.1 (sp.2.2 + inches 30) (inches 250) (inches 80) (setText sp.1.1),
      Shape.textbox sp.2.1 (sp.2.2 + inches 120) (inches 250) (inches 60) (setText sp.1.2)])⟩

/-- The literal step lines of slide 13 (`steps_text` in the source). -/
def steps_text : List String :=
  ["1. Clone the repository",
   "2. Run start.ps1 (Windows)",
   "3. Start processing in under 60 seconds"]

/-- Slide 13, built inline in the source: full-canvas primary background,
centered heading, the steps text box filled by the paragraph loop, and the
contact text box (whose assigned text contains a line feed, hence two
paragraphs). -/
def call_to_action_slide (prs : Document) : Slide :=
  ⟨[Shape.rect 0 0 prs.slide_width prs.slide_height prs.PRIMARY_COLOR,
    Shape.textbox (inches 100) (inches 150) (inches 800) (inches 100)
      (setText "Ready to Transform Your Workflow?"),
    Shape.textbox (inches 200) (inches 300) (inches 600) (inches 250) (fillParas steps_text),
    Shape.textbox (inches 200) (inches 600) (inches 600) (inches 80)
      (setText "Let's discuss how this platform can solve\nyour signal processing challenges")]⟩

/-- Slide 14, built inline in the source: full-canvas accent background,
"Thank You!" headline and tagline text boxes. -/
def thank_you_slide (prs : Document) : Slide :=
  ⟨[Shape.rect 0 0 prs.slide_width prs.slide_height prs.ACCENT_COLOR,
    Shape.textbox (inches 100) (inches 250) (inches 800) (inches 200) (setText "Thank You!"),
    Shape.textbox (inches 100) (inches 450) (inches 800) (inches 100)
      (setText "Signal Processing Visualization Platform")]⟩

/-- The fixed output filename passed to `prs.save(...)`. -/
def output_filename : String := "Signal_Processing_Platform_Presentation.pptx"

/-- `create_presentation()`: builds the 14 slides in source order on the
initial document, then saves the file and prints the four status lines.  The
result is the final in-memory document together with the trace of external
effects (the save, then the prints), in order. -/
def create_presentation : Document × List Event :=
  let prs := initial_document
  -- Slide 1: Title Slide
  let prs := add_title_slide prs
    "Signal Processing Visualization Platform"
    "Making Complex Signal Analysis Simple, Visual, and Accessible"
  -- Slide 2: The Problem
  let prs := add_content_slide prs "The Challenge"
    ["❌ Complex tools with steep learning curves",
     "❌ No real-time visualization of processing effects",
     "❌ Difficult to experiment with different parameters",
     "❌ Poor integration between generation, processing, and analysis",
     "",
     "✅ Our Solution: An all-in-one platform that makes signal processing",
     "    visual, interactive, and accessible"] "bullet"
  -- Slide 3: Key Features Overview
  let prs := add_feature_slide prs "Key Features"
    [("🎵 Multi-Signal Generation", "Generate sine, square, sawtooth waves, and white noise with configurable parameters"),
     ("⚡ Real-Time Processing", "Apply filters and transformations with instant visual feedback"),
     ("📊 Interactive Visualization", "Professional charting with zoom, pan, and side-by-side comparison"),
     ("🔔 Smart Event Detection", "Monitor signals with configurable thresholds and automatic event logging")]
  -- Slide 4: Signal Generation
  let prs := add_content_slide prs "Multi-Signal Generation"
    ["🎵 Sine Waves - Pure tones for testing",
     "⬛ Square Waves - Digital signal simulation",
     "📐 Sawtooth Waves - Audio synthesis",
     "📡 White Noise - System testing",
     "",
     "Configure:",
     "  • Frequency, amplitude, phase",
     "  • Duration and sample rate",
     "  • Instant parameter validation"] "bullet"
  -- Slide 5: Signal Processing
  let prs := add_content_slide prs "Real-Time Signal Processing"
    ["🔽 Low-Pass Filters",
     "  Remove high-frequency noise",
     "",
     "🔼 High-Pass Filters",
     "  Eliminate DC offset and low-frequency drift",
     "",
     "🎚️ Band-Pass Filters",
     "  Isolate specific frequency ranges",
     "",
     "📈 Gain Adjustment",
     "  Amplify or attenuate signals",
     "",
     "✨ See effects immediately with side-by-side comparison"] "bullet"
  -- Slide 6: Technical Excellence
  let prs := add_content_slide prs "Enterprise-Grade Architecture"
    ["🏗️ Onion Architecture",
     "  • Core Domain Layer - Pure business logic",
     "  • Application Layer - Use case orchestration",
     "  • Infrastructure Layer - Database & services",
     "  • Presentation Layer - REST API + React UI",
     "",
     "💻 Modern Technology Stack",
     "  • Backend: .NET 10 with ASP.NET Core",
     "  • Frontend: React 18 + TypeScript",
     "  • Time-Series DB: InfluxDB (10:1 compression)",
     "  • Metadata DB: MongoDB (flexible storage)",
     "  • API Documentation: Swagger/OpenAPI"] "bullet"
  -- Slide 7: Live Demo Flow
  let prs := add_content_slide prs "Live Demo Flow (3 Minutes)"
    ["1️⃣ Generate a 1kHz Sine Wave (30 sec)",
     "   • Show parameter panel",
     "   • Click generate",
     "   • Watch waveform appear instantly",
     "",
     "2️⃣ Apply Low-Pass Filter at 500Hz (30 sec)",
     "   • Configure filter parameters",
     "   • Apply processing",
     "   • See both signals side-by-side",
     "",
     "3️⃣ Test Threshold Detection (20 sec)",
     "   • Set threshold to 0.5",
     "   • Input values and trigger events",
     "",
     "4️⃣ Demonstrate Persistence (20 sec)",
     "   • Show historical signal selector"] "bullet"
  -- Slide 8: Use Cases
  let prs := add_feature_slide prs "Use Cases Across Industries"
    [("🔬 Research & Development", "Test algorithms, validate filter designs, prototype audio/RF systems"),
     ("🎓 Education", "Teach signal processing concepts with interactive visual demonstrations"),
     ("🏭 Quality Control", "Monitor production signals, detect anomalies, analyze historical data"),
     ("🎵 Audio Engineering", "Synthesize test tones, analyze frequency response, validate filter designs")]
  -- Slide 9: Competitive Advantage (inline comparison table)
  let prs := { prs with slides := prs.slides ++ [comparison_table_slide prs] }
  -- Slide 10: Business Value
  let prs := add_content_slide prs "Business Value"
    ["For Organizations:",
     "  📈 Reduce development time by 60%",
     "  💰 Lower training costs with intuitive UI",
     "  🤝 Better collaboration with visual results",
     "  ✅ Built-in quality assurance",
     "",
     "For Individuals:",
     "  🚀 Learn faster with visual feedback",
     "  🔬 Experiment freely with instant results",
     "  🏆 Professional-grade algorithms",
     "  🔒 Complete control - all data stays local"] "bullet"
  -- Slide 11: Future Roadmap
  let prs := add_content_slide prs "Future Roadmap"
    ["Phase 2 Enhancements:",
     "",
     "📊 Frequency-domain visualization (FFT spectrum)",
     "💾 Export signals to CSV/JSON",
     "📥 Import real-world signal data",
     "🎛️ Additional filter types (notch, all-pass)",
     "🎤 Real-time audio input streaming",
     "➕ Multi-signal arithmetic operations",
     "",
     "Your feedback shapes our roadmap!"] "bullet"
  -- Slide 12: Quick Stats (inline)
  let prs := { prs with slides := prs.slides ++ [quick_stats_slide prs] }
  -- Slide 13: Call to Action (inline)
  let prs := { prs with slides := prs.slides ++ [call_to_action_slide prs] }
  -- Slide 14: Thank You (inline)
  let prs := { prs with slides := prs.slides ++ [thank_you_slide prs] }
  -- Save, then print the status lines
  (prs,
   [Event.save output_filename,
    Event.printLine "✅ Presentation created successfully: Signal_Processing_Platform_Presentation.pptx",
    Event.printLine "📊 Total slides: 14",
    Event.printLine "🎨 Professional blue theme applied",
    Event.printLine "⏱️ Optimized for 3-minute delivery"])

/-! ### Observation helpers -/

/-- The text of the first paragraph of the first text box among `shapes`
(used to identify a slide: every slide's first text box is its title or
headline). -/
def firstTextboxText : List Shape → String
  | [] => ""
  | Shape.textbox _ _ _ _ (t :: _) :: _ => t
  | Shape.textbox _ _ _ _ [] :: _ => ""
  | _ :: rest => firstTextboxText rest

/-- The identifying title of each slide of a document, in order. -/
def slide_titles (d : Document) : List String :=
  d.slides.map (fun s => firstTextboxText s.shapes)

/-- All text carried by a shape: none for a plain rectangle, the paragraph
texts for a text box, the concatenated cell texts for a table. -/
def shapeTexts : Shape → List String
  | Shape.rect _ _ _ _ _ => []
  | Shape.textbox _ _ _ _ ps => ps
  | Shape.table _ _ _ _ _ _ cells => cells.flatten

/-- The literal text content of a document: per slide, per shape. -/
def docTexts (d : Document) : List (List (List String)) :=
  d.slides.map (fun s => s.shapes.map shapeTexts)

/-- The `(rows, cols, cells)` data of every table shape on a slide. -/
def tablesOf (s : Slide) : List (Nat × Nat × List (List String)) :=
  s.shapes.filterMap (fun sh => match sh with
    | Shape.table _ _ _ _ r c cells => some (r, c, cells)
    | _ => none)

/-- The last slide of a document (the one just appended by a builder). -/
def lastSlide (d : Document) : Slide := (d.slides.getLast?).getD ⟨[]⟩

/-- Reads a shape list as a sequence of feature-box groups
(rectangle, heading text box, description text box), returning per group the
rectangle's grid position and the two paragraph lists; stops at the first
shape run not of that form. -/
def featureTriples : List Shape → List ((Nat × Nat) × List String × List String)
  | Shape.rect x y _ _ _ :: Shape.textbox _ _ _ _ hs :: Shape.textbox _ _ _ _ ds :: rest =>
      ((x, y), hs, ds) :: featureTriples rest
  | _ => []

/-- The lines printed by the run, in order. -/
def printed_lines : List String :=
  create_presentation.2.filterMap (fun e => match e with
    | Event.printLine s => some s
    | _ => none)

/-- The filenames saved by the run, in order. -/
def saved_filenames : List String :=
  create_presentation.2.filterMap (fun e => match e with
    | Event.save n => some n
    | _ => none)

/-- Whether an event is a console print. -/
def isPrintEvent : Event → Bool
  | Event.printLine _ => true
  | _ => false

/-- A run of the program in a given working-directory state, modelled as a
list of named byte files.  The source reads nothing from the directory (the
script takes no input at all), so the run ignores it; the directory only
determines which previous bytes the final save overwrites. -/
def run_in_directory (dir : List (String × List Nat)) : Document × List Event :=
  create_presentation

/-! ### Helper lemmas -/

theorem set_length_append (l : List α) (x a : α) :
    (l ++ [x]).set l.length a = l ++ [a] := by
  induction l with
  | nil => rfl
  | cons b t ih => simp [List.set, ih]

theorem fillParasAux_append (items : List String) :
    ∀ (i : Nat) (acc : List String), 1 ≤ i → acc.length = i →
      fillParasAux items i acc = acc ++ items := by
  induction items with
  | nil => intro i acc _ _; simp [fillParasAux]
  | cons item rest ih =>
      intro i acc hi hlen
      have hpos : i > 0 := hi
      have hset : (acc ++ [""]).set i item = acc ++ [item] := by
        rw [← hlen]; exact set_length_append acc "" item
      simp only [fillParasAux, if_pos hpos, hset]
      have := ih (i + 1) (acc ++ [item]) (by omega) (by simp [hlen])
      simpa using this

/-- The paragraph loop over a nonempty item list yields exactly the items,
one paragraph each. -/
theorem fillParas_of_ne_nil (items : List String) (h : items ≠ []) :
    fillParas items = items := by
  match items, h with
  | x :: xs, _ =>
      show fillParasAux (x :: xs) 0 [""] = x :: xs
      simp only [fillParasAux, if_neg (by omega : ¬ (0 : Nat) > 0)]
      have : ([""] : List String).set 0 x = [x] := rfl
      rw [this]
      simpa using fillParasAux_append xs 1 [x] (by omega) rfl

theorem featureTriples_flatMap (bg : RGB) :
    ∀ (fs : List (String × String)) (ps : List (Nat × Nat)),
      featureTriples ((fs.zip ps).flatMap
          (fun fp => featureBoxShapes bg fp.2.1 fp.2.2 fp.1.1 fp.1.2)) =
        (fs.zip ps).map (fun fp => (fp.2, setText fp.1.1, setText fp.1.2)) := by
  intro fs
  induction fs with
  | nil => intro ps; rfl
  | cons f rest ih =>
      intro ps
      cases ps with
      | nil => rfl
      | cons p pt =>
          simp only [List.zip_cons_cons, List.flatMap_cons, List.map_cons]
          rw [show featureBoxShapes bg (f, p).2.1 (f, p).2.2 (f, p).1.1 (f, p).1.2 ++
                (rest.zip pt).flatMap (fun fp => featureBoxShapes bg fp.2.1 fp.2.2 fp.1.1 fp.1.2) =
              Shape.rect p.1 p.2 (inches 400) (inches 250) bg ::
              Shape.textbox (p.1 + inches 20) (p.2 + inches 20) (inches 400 - inches 40)
                (inches 50) (setText f.1) ::
              Shape.textbox (p.1 + inches 20) (p.2 + inches 80) (inches 400 - inches 40)
                (inches 250 - inches 100) (setText f.2) ::
              (rest.zip pt).flatMap (fun fp => featureBoxShapes bg fp.2.1 fp.2.2 fp.1.1 fp.1.2)
              from rfl]
          rw [show featureTriples (Shape.rect p.1 p.2 (inches 400) (inches 250) bg ::
              Shape.textbox (p.1 + inches 20) (p.2 + inches 20) (inches 400 - inches 40)
                (inches 50) (setText f.1) ::
              Shape.textbox (p.1 + inches 20) (p.2 + inches 80) (inches 400 - inches 40)
                (inches 250 - inches 100) (setText f.2) ::
              (rest.zip pt).flatMap (fun fp => featureBoxShapes bg fp.2.1 fp.2.2 fp.1.1 fp.1.2)) =
              ((p.1, p.2), setText f.1, setText f.2) ::
              featureTriples ((rest.zip pt).flatMap
                (fun fp => featureBoxShapes bg fp.2.1 fp.2.2 fp.1.1 fp.1.2)) from rfl]
          rw [ih pt]

/-! ### Claims -/

/-- C1: Invoking the program's entry point produces a document containing
exactly 14 slides, in the fixed order: title, challenge, features,
generation, processing, architecture, demo-flow, use-cases,
comparison-table, business-value, roadmap, stats, call-to-action, thank-you
(each slide identified by its title/headline text). -/
theorem create_presentation_fourteen_slides_in_order :
    create_presentation.1.slides.length = 14 ∧
    slide_titles create_presentation.1 =
      ["Signal Processing Visualization Platform",
       "The Challenge",
       "Key Features",
       "Multi-Signal Generation",
       "Real-Time Signal Processing",
       "Enterprise-Grade Architecture",
       "Live Demo Flow (3 Minutes)",
       "Use Cases Across Industries",
       "What Makes Us Different",
       "Business Value",
       "Future Roadmap",
       "Quick Stats",
       "Ready to Transform Your Workflow?",
       "Thank You!"] := ⟨rfl, rfl⟩

/-- C4: The comparison-table slide (slide 9, index 8) contains exactly one
table, of exactly 7 rows and 3 columns, whose row 0 is
["Feature", "Traditional Tools", "Our Platform"] and whose row 1 is
["Learning Curve", "Weeks", "✅ Minutes"]. -/
theorem comparison_table_dimensions :
    (create_presentation.1.slides.get? 8).map tablesOf = some [(7, 3, table_data)] ∧
    table_data.length = 7 ∧
    table_data.all (fun row => row.length == 3) = true ∧
    table_data.get? 0 = some ["Feature", "Traditional Tools", "Our Platform"] ∧
    table_data.get? 1 = some ["Learning Curve", "Weeks", "✅ Minutes"] :=
  ⟨rfl, rfl, rfl, rfl, rfl⟩

/-- C5 (counterexample): the program does not print exactly three lines
after the save — the source has four `print` calls. -/
theorem printed_lines_count_not_three : printed_lines.length ≠ 3 := by
  have h : printed_lines.length = 4 := rfl
  omega

/-- C5 (amended): after the save, the program prints exactly four fixed,
literal confirmation lines to standard output — the effect trace is the save
followed by precisely these four prints. -/
theorem printed_lines_exactly_four :
    printed_lines =
      ["✅ Presentation created successfully: Signal_Processing_Platform_Presentation.pptx",
       "📊 Total slides: 14",
       "🎨 Professional blue theme applied",
       "⏱️ Optimized for 3-minute delivery"] ∧
    printed_lines.length = 4 ∧
    create_presentation.2 = Event.save output_filename :: printed_lines.map Event.printLine :=
  ⟨rfl, rfl, rfl⟩

/-- C7: the run saves the document exactly once, under the exact name
Signal_Processing_Platform_Presentation.pptx, and the save is the last
action on the document and filesystem: every event after it is a console
print (the document is fully built before the trace begins, and no further
file event follows the save). -/
theorem save_exactly_once_then_prints :
    saved_filenames = ["Signal_Processing_Platform_Presentation.pptx"] ∧
    create_presentation.2.head? = some (Event.save "Signal_Processing_Platform_Presentation.pptx") ∧
    create_presentation.2.tail.all isPrintEvent = true :=
  ⟨rfl, rfl, rfl⟩

/-- C8: the generation is deterministic in content — runs in any two
working-directory states produce documents with the same slide count and the
same literal text in every shape (the program takes no input at all). -/
theorem generation_deterministic (d₁ d₂ : List (String × List Nat)) :
    (run_in_directory d₁).1.slides.length = (run_in_directory d₂).1.slides.length ∧
    docTexts (run_in_directory d₁).1 = docTexts (run_in_directory d₂).1 :=
  ⟨rfl, rfl⟩

/-- C2: in two-column mode the content builder puts the first
`N / 2` items (in input order) in the left text box and the remaining
`N - N / 2` items (in input order) in the right text box, each item as its
own paragraph.  (For `N < 2` one of the halves is empty and the
corresponding fresh text frame keeps its single default empty paragraph;
the claim's split concerns lists where both columns receive items.) -/
theorem add_content_slide_two_column_split (prs : Document) (title : String)
    (items : List String) (h : 2 ≤ items.length) :
    (add_content_slide prs title items "two_column").slides =
      prs.slides ++ [⟨[Shape.rect 0 0 prs.slide_width (inches 100) prs.PRIMARY_COLOR,
        Shape.textbox (inches 50) (inches 20) (inches 900) (inches 60) (setText title),
        Shape.textbox (inches 80) (inches 150) (inches 400) (inches 550)
          (items.take (items.length / 2)),
        Shape.textbox (inches 520) (inches 150) (inches 400) (inches 550)
          (items.drop (items.length / 2))]⟩] ∧
    (items.take (items.length / 2)).length = items.length / 2 ∧
    (items.drop (items.length / 2)).length = items.length - items.length / 2 := by
  have htake : items.take (items.length / 2) ≠ [] := by
    intro hc
    have := congrArg List.length hc
    simp only [List.length_take, List.length_nil] at this
    omega
  have hdrop : items.drop (items.length / 2) ≠ [] := by
    intro hc
    have := congrArg List.length hc
    simp only [List.length_drop, List.length_nil] at this
    omega
  refine ⟨?_, ?_, ?_⟩
  · simp only [add_content_slide]
    rw [if_neg (by decide), if_pos (by trivial),
      fillParas_of_ne_nil _ htake, fillParas_of_ne_nil _ hdrop]
    rfl
  · simp only [List.length_take]
    omega
  · simp only [List.length_drop]

/-- C2 witness: a 7-item list yields 3 items left and 4 right, in order. -/
theorem add_content_slide_two_column_split_witness :
    2 ≤ (["i1", "i2", "i3", "i4", "i5", "i6", "i7"] : List String).length ∧
    (add_content_slide initial_document "T"
        ["i1", "i2", "i3", "i4", "i5", "i6", "i7"] "two_column").slides =
      [⟨[Shape.rect 0 0 (inches 1000) (inches 100) ⟨0, 102, 204⟩,
         Shape.textbox (inches 50) (inches 20) (inches 900) (inches 60) ["T"],
         Shape.textbox (inches 80) (inches 150) (inches 400) (inches 550) ["i1", "i2", "i3"],
         Shape.textbox (inches 520) (inches 150) (inches 400) (inches 550)
           ["i4", "i5", "i6", "i7"]]⟩] := by
  refine ⟨by decide, ?_⟩
  have h := add_content_slide_two_column_split initial_document "T"
    ["i1", "i2", "i3", "i4", "i5", "i6", "i7"] (by decide)
  exact h.1

theorem featureBoxShapes_flatMap_length (bg : RGB)
    (l : List ((String × String) × (Nat × Nat))) :
    (l.flatMap (fun fp => featureBoxShapes bg fp.2.1 fp.2.2 fp.1.1 fp.1.2)).length =
      3 * l.length := by
  induction l with
  | nil => rfl
  | cons a t ih =>
      rw [List.flatMap_cons, List.length_append, ih,
        show (featureBoxShapes bg a.2.1 a.2.2 a.1.1 a.1.2).length = 3 from rfl,
        List.length_cons]
      omega

/-- C3: the feature-grid builder populates one box group per pair of
`features.take 4` — pairs beyond the fourth are dropped, and with `k < 4`
pairs the slide carries exactly `2 + 3·k` shapes (title bar, title, and the
three shapes of each of the `k` boxes), nothing at the remaining grid
positions; the groups sit at the four fixed grid positions in order
top-left, top-right, bottom-left, bottom-right with the pair's heading and
description. -/
theorem add_feature_slide_first_four (prs : Document) (title : String)
    (features : List (String × String)) :
    (lastSlide (add_feature_slide prs title features)).shapes.length =
      2 + 3 * min features.length 4 ∧
    featureTriples ((lastSlide (add_feature_slide prs title features)).shapes.drop 2) =
      ((features.take 4).zip featurePositions).map
        (fun fp => (fp.2, setText fp.1.1, setText fp.1.2)) := by
  have hlast : lastSlide (add_feature_slide prs title features) =
      ⟨[Shape.rect 0 0 prs.slide_width (inches 100) prs.PRIMARY_COLOR,
        Shape.textbox (inches 50) (inches 20) (inches 900) (inches 60) (setText title)] ++
       ((features.take 4).zip featurePositions).flatMap
         (fun fp => featureBoxShapes prs.LIGHT_BG fp.2.1 fp.2.2 fp.1.1 fp.1.2)⟩ := by
    simp [lastSlide, add_feature_slide, List.getLast?_concat]
  constructor
  · rw [hlast]
    simp only [List.length_append, List.length_cons, List.length_nil,
      featureBoxShapes_flatMap_length, List.length_zip, List.length_take]
    have hp : featurePositions.length = 4 := rfl
    rw [hp]
    omega
  · rw [hlast]
    have hdrop : (([Shape.rect 0 0 prs.slide_width (inches 100) prs.PRIMARY_COLOR,
        Shape.textbox (inches 50) (inches 20) (inches 900) (inches 60) (setText title)] ++
       ((features.take 4).zip featurePositions).flatMap
         (fun fp => featureBoxShapes prs.LIGHT_BG fp.2.1 fp.2.2 fp.1.1 fp.1.2)) :
          List Shape).drop 2 =
        ((features.take 4).zip featurePositions).flatMap
          (fun fp => featureBoxShapes prs.LIGHT_BG fp.2.1 fp.2.2 fp.1.1 fp.1.2) := rfl
    rw [hdrop, featureTriples_flatMap]

/-- C6: in bullet mode with an empty item list, the content builder appends
one slide holding the title bar, the title text box, and a body text box
with no content (only the fresh frame's single empty paragraph); the
builder is total, so no error is raised. -/
theorem add_content_slide_empty_bullet (prs : Document) (title : String) :
    (add_content_slide prs title [] "bullet").slides =
      prs.slides ++ [⟨[Shape.rect 0 0 prs.slide_width (inches 100) prs.PRIMARY_COLOR,
        Shape.textbox (inches 50) (inches 20) (inches 900) (inches 60) (setText title),
        Shape.textbox (inches 80) (inches 150) (inches 840) (inches 550) [""]]⟩] ∧
    (fillParas []).all (fun p => p == "") = true :=
  ⟨rfl, rfl⟩

/-- The frame property common to all builders: one slide appended at the
end, all earlier slides (with their shapes, positions and sizes) kept
verbatim, canvas dimensions and the five palette colours untouched. -/
def builderFrame (d prs : Document) : Prop :=
  d.slides.length = prs.slides.length + 1 ∧
  d.slides.take prs.slides.length = prs.slides ∧
  d.slide_width = prs.slide_width ∧
  d.slide_height = prs.slide_height ∧
  d.PRIMARY_COLOR = prs.PRIMARY_COLOR ∧
  d.SECONDARY_COLOR = prs.SECONDARY_COLOR ∧
  d.ACCENT_COLOR = prs.ACCENT_COLOR ∧
  d.LIGHT_BG = prs.LIGHT_BG ∧
  d.WHITE = prs.WHITE

theorem append_slide_frame (prs : Document) (s : Slide) :
    builderFrame { prs with slides := prs.slides ++ [s] } prs :=
  ⟨by simp, List.take_left _ _, rfl, rfl, rfl, rfl, rfl, rfl, rfl⟩

/-- C9: every builder call mutates the document only by appending exactly
one slide at the end — previously created slides (hence their shapes'
positions and sizes), the canvas dimensions, and the five palette colours
are unchanged by the call. -/
theorem builders_append_exactly_one_slide (prs : Document) (t sub : String)
    (items : List String) (lay : String) (features : List (String × String)) :
    builderFrame (add_title_slide prs t sub) prs ∧
    builderFrame (add_content_slide prs t items lay) prs ∧
    builderFrame (add_feature_slide prs t features) prs :=
  ⟨append_slide_frame prs _, append_slide_frame prs _, append_slide_frame prs _⟩

/-- C10: for any layout type other than "bullet" and "two_column", the
content builder appends a slide containing only the title bar and title
text box — no body text boxes — and, being total, raises no error. -/
theorem add_content_slide_unknown_layout (prs : Document) (title : String)
    (items : List String) (lay : String)
    (h1 : lay ≠ "bullet") (h2 : lay ≠ "two_column") :
    (add_content_slide prs title items lay).slides =
      prs.slides ++ [⟨[Shape.rect 0 0 prs.slide_width (inches 100) prs.PRIMARY_COLOR,
        Shape.textbox (inches 50) (inches 20) (inches 900) (inches 60) (setText title)]⟩] := by
  simp only [add_content_slide, if_neg h1, if_neg h2, List.append_nil]

/-- C10 witness: the layout type "grid" yields a slide with exactly the
title bar and title text box. -/
theorem add_content_slide_unknown_layout_witness :
    (add_content_slide initial_document "Title" ["a", "b"] "grid").slides =
      [⟨[Shape.rect 0 0 (inches 1000) (inches 100) ⟨0, 102, 204⟩,
         Shape.textbox (inches 50) (inches 20) (inches 900) (inches 60) ["Title"]]⟩] := by
  have h := add_content_slide_unknown_layout initial_document "Title" ["a", "b"] "grid"
    (by decide) (by decide)
  exact h

end CreatePresentation
